import Mathlib

/-!
Shallow embedding of `conventions.py` (SOLikeT repository) and proofs of the
specification's claims about its naming conventions.

Python strings are modelled as Lean `String`; Python lists as `List`; the
`subfolders` dict as an association-list lookup returning `Option String`
(a missing key, which raises `KeyError` in Python, is `none` here); the
module-level `reserved_attributes` set, which is defined twice in the file
(lines 27-28 and line 179, the second rebinding shadowing the first), is
modelled by two definitions, `reserved_attributes_early` for the shadowed
binding and `reserved_attributes` for the effective one.
-/

namespace Conventions

/-- Separator for fields in parameter names (conventions.py line 36). -/
def derived_par_name_separator : String := "__"

namespace OutPar

/-- Field name for the sample weight (conventions.py line 42). -/
def weight : String := "weight"

/-- Field name for the log-posterior (conventions.py line 44). -/
def minuslogpost : String := "minuslogpost"

/-- Field name for the log-prior (conventions.py line 45). -/
def minuslogprior : String := "minuslogprior"

/-- Field name for the chi-squared columns (conventions.py line 46). -/
def chi2 : String := "chi2"

end OutPar

/-- `get_chi2_name` (conventions.py lines 52-53): prepend the chi2 base token
and the separator to a likelihood name. -/
def get_chi2_name (p : String) : String :=
  OutPar.chi2 ++ derived_par_name_separator ++ p

/-- `undo_chi2_name` (conventions.py lines 56-57): Python slice
`p[len(OutPar.chi2 + derived_par_name_separator):]`, i.e. drop that many
leading characters; no validation of the prefix is performed. -/
def undo_chi2_name (p : String) : String :=
  p.drop (OutPar.chi2 ++ derived_par_name_separator).length

/-- `get_minuslogpior_name` (conventions.py lines 64-65). -/
def get_minuslogpior_name (piname : String) : String :=
  OutPar.minuslogprior ++ derived_par_name_separator ++ piname

/-- `minuslogprior_names` (conventions.py lines 68-69): list comprehension
mapping `get_minuslogpior_name` over the input. -/
def minuslogprior_names (prior : List String) : List String :=
  prior.map get_minuslogpior_name

/-- `chi2_names` (conventions.py lines 72-73): list comprehension mapping
`get_chi2_name` over the input. -/
def chi2_names (likes : List String) : List String :=
  likes.map get_chi2_name

/-- `kinds` (conventions.py lines 174-175): the `ComponentKinds` namedtuple
instantiated with its own field names, so its values are the three strings
below. -/
def kinds : List String := ["sampler", "theory", "likelihood"]

/-- The first `reserved_attributes` binding (conventions.py lines 27-28),
later shadowed by the line-179 rebinding. -/
def reserved_attributes_early : List String :=
  ["input_params", "output_params", "install_options", "bibtex_file",
   "file_base_name"]

/-- The effective `reserved_attributes` binding (conventions.py line 179):
`{_input_params, _output_params, "install_options", "bibtex_file"}` with
`_input_params = "input_params"` and `_output_params = "output_params"`. -/
def reserved_attributes : List String :=
  ["input_params", "output_params", "install_options", "bibtex_file"]

/-- The effective `subfolders` dict (conventions.py lines 226-228; it shadows
the identical literal at lines 109-111): keys are `kinds.likelihood`,
`kinds.sampler`, `kinds.theory`, i.e. the strings themselves. -/
def subfolders_pairs : List (String × String) :=
  [("likelihood", "likelihoods"), ("sampler", "samplers"),
   ("theory", "theories")]

/-- Dict lookup `subfolders[k]`: `some` value when the key is present,
`none` where Python raises `KeyError`. -/
def subfolders (k : String) : Option String :=
  subfolders_pairs.lookup k

/-- Modelled from the spec: the repository source has no decomposer for
minuslogprior names; the spec describes `decomposeMinusLogPriorName` as a
helper symmetric to the chi2 one, stripping the base token and separator by
length, mirroring `undo_chi2_name`. -/
def undo_minuslogprior_name (p : String) : String :=
  p.drop (OutPar.minuslogprior ++ derived_par_name_separator).length

/-! ### Helper lemmas -/

/-- Dropping the length of `s` from `s ++ t` leaves `t`. -/
lemma drop_length_append (s t : String) : (s ++ t).drop s.length = t := by
  apply String.ext
  rw [String.data_drop, String.data_append]
  exact List.drop_left s.data t.data

/-- The chi2 composition followed by decomposition is the identity for
every string. -/
lemma undo_get_chi2 (s : String) : undo_chi2_name (get_chi2_name s) = s := by
  unfold undo_chi2_name get_chi2_name
  exact drop_length_append _ s

/-- The minuslogprior composition followed by the spec-modelled
decomposition is the identity for every string. -/
lemma undo_get_minuslogprior (s : String) :
    undo_minuslogprior_name (get_minuslogpior_name s) = s := by
  unfold undo_minuslogprior_name get_minuslogpior_name
  exact drop_length_append _ s

/-! ### Claims -/

/-- Claim C1: for every non-empty string s that does not contain the
separator token "__", decomposing the composed chi2 name gives back s:
`undo_chi2_name (get_chi2_name s) = s`. -/
theorem chi2_roundtrip (s : String) (hne : s ≠ "")
    (hsep : ¬ List.IsInfix derived_par_name_separator.data s.data) :
    undo_chi2_name (get_chi2_name s) = s :=
  undo_get_chi2 s

/-- Witness for C1 at the concrete input "planck". -/
theorem chi2_roundtrip_witness :
    ("planck" : String) ≠ "" ∧
    ¬ List.IsInfix derived_par_name_separator.data "planck".data ∧
    undo_chi2_name (get_chi2_name "planck") = "planck" :=
  ⟨by decide, by decide, chi2_roundtrip "planck" (by decide) (by decide)⟩

/-- Claim C2 counterexample: `undo_chi2_name` applied to a string that does
not start with "chi2__" does not fail with any error; it silently returns a
wrong substring of the input. -/
theorem undo_chi2_no_failure_cex :
    undo_chi2_name "not_chi2__x" = "i2__x" := by decide

/-- Claim C2 amended: for every string p, including those not starting with
"chi2__", `undo_chi2_name` performs no validation: it succeeds and returns p
with its first six characters removed, never raising an error. -/
theorem undo_chi2_no_validation (p : String)
    (h : p.startsWith "chi2__" = false) :
    undo_chi2_name p = p.drop 6 :=
  rfl

/-- Witness for the amended C2 at the concrete input "foo". -/
theorem undo_chi2_no_validation_witness :
    ("foo" : String).startsWith "chi2__" = false ∧
    undo_chi2_name "foo" = ("foo" : String).drop 6 :=
  ⟨by decide, undo_chi2_no_validation "foo" (by decide)⟩

/-- Claim C3: for every string p, `get_chi2_name p` is the concatenation
"chi2" ++ "__" ++ p; in particular `get_chi2_name "planck_2018"` is
"chi2__planck_2018" and `undo_chi2_name "chi2__planck_2018"` is
"planck_2018". -/
theorem get_chi2_name_concat :
    (∀ p : String, get_chi2_name p = "chi2" ++ "__" ++ p) ∧
    get_chi2_name "planck_2018" = "chi2__planck_2018" ∧
    undo_chi2_name "chi2__planck_2018" = "planck_2018" :=
  ⟨fun _ => rfl, by decide, by decide⟩

/-- Claim C4: `chi2_names` and `minuslogprior_names` map the corresponding
compose function element-wise, preserving order and length, and both return
the empty list on empty input. -/
theorem names_map_elementwise :
    (∀ l : List String, chi2_names l = l.map get_chi2_name) ∧
    (∀ l : List String, minuslogprior_names l = l.map get_minuslogpior_name) ∧
    (∀ a b c : String,
      chi2_names [a, b, c] =
        [get_chi2_name a, get_chi2_name b, get_chi2_name c] ∧
      minuslogprior_names [a, b, c] =
        [get_minuslogpior_name a, get_minuslogpior_name b,
         get_minuslogpior_name c]) ∧
    (∀ l : List String, (chi2_names l).length = l.length ∧
      (minuslogprior_names l).length = l.length) ∧
    chi2_names [] = [] ∧ minuslogprior_names [] = [] := by
  refine ⟨fun _ => rfl, fun _ => rfl, fun a b c => ⟨rfl, rfl⟩,
    fun l => ⟨?_, ?_⟩, rfl, rfl⟩
  · exact List.length_map l get_chi2_name
  · exact List.length_map l get_minuslogpior_name

/-- Claim C5: the `subfolders` lookup returns a non-empty string for every
kind in the closed set {sampler, theory, likelihood}, with the mapping
likelihood to "likelihoods", sampler to "samplers", theory to "theories",
and fails (KeyError, modelled as `none`) for any value outside that set. -/
theorem subfolders_closed_set :
    subfolders "likelihood" = some "likelihoods" ∧
    subfolders "sampler" = some "samplers" ∧
    subfolders "theory" = some "theories" ∧
    (∀ k, k ∈ kinds → ∃ v, subfolders k = some v ∧ v ≠ "") ∧
    (∀ k : String, k ∉ kinds → subfolders k = none) := by
  refine ⟨by decide, by decide, by decide, ?_, ?_⟩
  · intro k hk
    simp only [kinds, List.mem_cons, List.not_mem_nil, or_false] at hk
    rcases hk with rfl | rfl | rfl
    · exact ⟨"samplers", by decide, by decide⟩
    · exact ⟨"theories", by decide, by decide⟩
    · exact ⟨"likelihoods", by decide, by decide⟩
  · intro k hk
    simp only [kinds, List.mem_cons, List.not_mem_nil, or_false] at hk
    push_neg at hk
    obtain ⟨h1, h2, h3⟩ := hk
    have b1 : (k == "sampler") = false := beq_eq_false_iff_ne.mpr h1
    have b2 : (k == "theory") = false := beq_eq_false_iff_ne.mpr h2
    have b3 : (k == "likelihood") = false := beq_eq_false_iff_ne.mpr h3
    simp [subfolders, subfolders_pairs, List.lookup, b1, b2, b3]

/-- Witness for C5 at the concrete inputs "theory" and "chain". -/
theorem subfolders_closed_set_witness :
    (∃ v, subfolders "theory" = some v ∧ v ≠ "") ∧
    subfolders "chain" = none :=
  ⟨subfolders_closed_set.2.2.2.1 "theory" (by decide),
   subfolders_closed_set.2.2.2.2 "chain" (by decide)⟩

/-- Claim C6: membership in the reserved-attribute set is stable: the test
is true for "input_params" and false for "arbitrary_unrelated_name". -/
theorem reserved_attr_membership :
    "input_params" ∈ reserved_attributes ∧
    "arbitrary_unrelated_name" ∉ reserved_attributes := by decide

/-- Claim C7: for every string p, `get_minuslogpior_name p` is the
concatenation "minuslogprior" ++ "__" ++ p; in particular
`get_minuslogpior_name "H0"` is "minuslogprior__H0". -/
theorem get_minuslogpior_name_concat :
    (∀ p : String, get_minuslogpior_name p = "minuslogprior" ++ "__" ++ p) ∧
    get_minuslogpior_name "H0" = "minuslogprior__H0" :=
  ⟨fun _ => rfl, by decide⟩

/-- Claim C8: for every non-empty string s that does not contain the
separator token "__", the spec-modelled minuslogprior decomposer inverts the
composer: `undo_minuslogprior_name (get_minuslogpior_name s) = s`. -/
theorem minuslogprior_roundtrip (s : String) (hne : s ≠ "")
    (hsep : ¬ List.IsInfix derived_par_name_separator.data s.data) :
    undo_minuslogprior_name (get_minuslogpior_name s) = s :=
  undo_get_minuslogprior s

/-- Witness for C8 at the concrete input "H0". -/
theorem minuslogprior_roundtrip_witness :
    ("H0" : String) ≠ "" ∧
    ¬ List.IsInfix derived_par_name_separator.data "H0".data ∧
    undo_minuslogprior_name (get_minuslogpior_name "H0") = "H0" :=
  ⟨by decide, by decide, minuslogprior_roundtrip "H0" (by decide) (by decide)⟩

/-- Claim C9: `undo_chi2_name` is total and equals its argument with the
first six characters removed (the empty string when the argument is shorter
than six characters); consequently the chi2 round-trip holds for every
string, including the empty string and strings containing "__". -/
theorem undo_chi2_total_drop_six :
    (∀ p : String, undo_chi2_name p = p.drop 6) ∧
    (∀ p : String, p.length < 6 → undo_chi2_name p = "") ∧
    (∀ s : String, undo_chi2_name (get_chi2_name s) = s) ∧
    undo_chi2_name (get_chi2_name "") = "" ∧
    undo_chi2_name (get_chi2_name "a__b") = "a__b" := by
  refine ⟨fun _ => rfl, ?_, undo_get_chi2, undo_get_chi2 "",
    undo_get_chi2 "a__b"⟩
  intro p hp
  have hdef : undo_chi2_name p = p.drop 6 := rfl
  rw [hdef]
  apply String.ext
  rw [String.data_drop]
  exact List.drop_eq_nil_of_le (Nat.le_of_lt hp)

/-- Witness for C9 at the concrete short input "ab". -/
theorem undo_chi2_total_drop_six_witness :
    ("ab" : String).length < 6 ∧ undo_chi2_name "ab" = "" :=
  ⟨by decide, undo_chi2_total_drop_six.2.1 "ab" (by decide)⟩

/-- Claim C10: the effective reserved-attribute set is exactly
{"input_params", "output_params", "install_options", "bibtex_file"}: the
line-179 rebinding shadows the earlier binding that also contained
"file_base_name", so membership is false for "file_base_name" even though
it belonged to the shadowed set. -/
theorem reserved_attributes_shadowed :
    (∀ x : String, x ∈ reserved_attributes ↔
      (x = "input_params" ∨ x = "output_params" ∨ x = "install_options" ∨
       x = "bibtex_file")) ∧
    "file_base_name" ∉ reserved_attributes ∧
    "file_base_name" ∈ reserved_attributes_early := by
  refine ⟨fun x => ?_, by decide, by decide⟩
  simp [reserved_attributes, List.mem_cons]

end Conventions
